import Mathlib

/-!
Shallow embedding of `src/plugins/catalog/src/components/CatalogTable/CatalogTable.tsx`
from the backstage repository fragment.

The component `CatalogTable` receives props (`entities`, `titlePreamble`,
`loading`, `error`), mirrors `entities`/`error` into local state via an
effect, and renders either an error alert or a table.  Its collaborators
(`configApi`, `catalogApi`, `findLocationForEntityMeta`) are modelled as
explicit parameters; fallible calls return `Except`, and the asynchronous
bootstrap action `addMockData` is modelled as a state transformer that also
emits the trace of external calls it initiates.
-/

/-- The `Entity.metadata` record as used by the component (`metadata.name`,
`metadata.namespace`, `metadata.description`). -/
structure EntityMeta where
  name : String
  namespace_ : Option String
  description : String
deriving DecidableEq

/-- The `Entity.spec` record as used by the component (`spec.owner`, `spec.lifecycle`). -/
structure EntitySpec where
  owner : String
  lifecycle : String
deriving DecidableEq

/-- The catalog `Entity` record, restricted to the fields this view reads. -/
structure Entity where
  kind : String
  metadata : EntityMeta
  spec : EntitySpec
deriving DecidableEq

/-- A `LocationSpec` from the catalog model: a `{type, target}` pair. -/
structure LocationSpec where
  type : String
  target : String
deriving DecidableEq

/-- A thrown JS error value; `str` is what its string conversion yields. -/
structure Err where
  str : String
deriving DecidableEq

/-- The record returned by `catalogApi.addLocation` (its contents are
discarded by the component, so no fields are modelled). -/
structure LocationRecord where
deriving DecidableEq

/-- The props of `CatalogTable` (`CatalogTableProps` in the source).
`error` has TS type `any` but is stored into state typed
`Error | undefined`, so it is modelled as `Option Err`. -/
structure CatalogTableProps where
  entities : List Entity
  titlePreamble : String
  loading : Bool
  error : Option Err
deriving DecidableEq

/-- The component-local state: `entitiesState` (initial `[]`) and
`errorState` (initial `undefined`). -/
structure ComponentState where
  entitiesState : List Entity
  errorState : Option Err
deriving DecidableEq

/-- The `useEffect` body (lines 96-99): on receipt of new `error` /
`entities` prop values it runs `setError(error); setEntitiesState(entities)`,
wholesale.  Modelled as a state transformer; the previous state `_s` is
ignored exactly as in the source. -/
def syncStateWithProps (p : CatalogTableProps) (_s : ComponentState) : ComponentState :=
  { entitiesState := p.entities, errorState := p.error }

/-- Line 175: `hidden: entitiesState && entitiesState.length > 0` for the
"Add example components" free action.  `entitiesState` has type `Entity[]`
and a JS array is always truthy, so the conjunct reduces to the length
test. -/
def addExampleHidden (entitiesState : List Entity) : Bool :=
  entitiesState.length > 0

/-- What the component returns from its render function: either the error
alert `<div><Alert severity="error">...</Alert></div>` (lines 100-109), or
the `<Table>` element (lines 179-193) with its title string, `data`,
`showEmptyDataSourceMessage` option, the hidden flag of the
"Add example components" free action, and `isLoading`. -/
inductive View where
  | errorView (text : String)
  | tableView (title : String) (data : List Entity)
      (showEmptyDataSourceMessage : Bool) (addExampleActionHidden : Bool)
      (isLoading : Bool)
deriving DecidableEq

/-- The render function of `CatalogTable`.  If `errorState` is set the
component returns the alert containing
`"Error encountered while fetching catalog entities. " + errorState.toString()`
and nothing else; otherwise it returns the table, whose title is
`titlePreamble + " (" + ((entities && entities.length) || 0) + ")"`
(line 189; with `entities : List Entity` the JS truthiness guard is the
identity, and `length || 0` equals `length`), whose `data` is
`entitiesState`, and whose `showEmptyDataSourceMessage` option is
`!loading`. -/
def render (s : ComponentState) (p : CatalogTableProps) : View :=
  match s.errorState with
  | some e =>
      View.errorView ("Error encountered while fetching catalog entities. " ++ e.str)
  | none =>
      View.tableView
        (p.titlePreamble ++ " (" ++ toString p.entities.length ++ ")")
        s.entitiesState
        (!p.loading)
        (addExampleHidden s.entitiesState)
        p.loading

/-- Title of a rendered view, when the table is rendered. -/
def viewTitle : View → Option String
  | View.errorView _ => none
  | View.tableView t _ _ _ _ => some t

/-- Row data of a rendered view, when the table is rendered. -/
def viewData : View → Option (List Entity)
  | View.errorView _ => none
  | View.tableView _ d _ _ _ => some d

/-! ## Per-row actions -/

/-- Replace the leftmost occurrence of `pat` in a character list by `repl`
(scanning left to right, as JS `String.prototype.replace` with a string
pattern does); if `pat` does not occur the list is returned unchanged.  An
empty `pat` matches at the start, as in JS. -/
def replaceFirstChars (pat repl : List Char) : List Char → List Char
  | [] => if pat.isEmpty then repl else []
  | c :: cs =>
      if pat.isPrefixOf (c :: cs) then repl ++ (c :: cs).drop pat.length
      else c :: replaceFirstChars pat repl cs

/-- Whether `pat` occurs as a contiguous run somewhere in the list. -/
def charsContains (pat : List Char) : List Char → Bool
  | [] => pat.isEmpty
  | c :: cs => pat.isPrefixOf (c :: cs) || charsContains pat cs

/-- JS `s.replace(pat, repl)` with a string pattern: only the FIRST
occurrence of `pat` is replaced. -/
def replaceFirst (s pat repl : String) : String :=
  ⟨replaceFirstChars pat.data repl.data s.data⟩

/-- Whether `pat` occurs somewhere in `s` (as a contiguous substring). -/
def containsSub (s pat : String) : Bool :=
  charsContains pat.data s.data

/-- The function `createEditLink` (lines 142-149): the `switch (location.type)` with a
single `case 'github'` arm rewriting the (first) `/blob/` segment of the
target to `/edit/`, and a `default` arm returning the target unchanged. -/
def createEditLink (location : LocationSpec) : String :=
  if location.type = "github" then replaceFirst location.target "/blob/" "/edit/"
  else location.target

/-- Truthiness of the JS test `location?.type === 'github'`: false when no
location resolved (`location?.type` is `undefined`). -/
def locationTypeIsGithub : Option LocationSpec → Bool
  | some l => l.type == "github"
  | none => false

/-- A per-row table action as the component builds it: its tooltip, the URL
its `onClick` handler passes to `window.open` (`none` when the handler
returns without opening anything), and its `hidden` flag. -/
structure RowAction where
  tooltip : String
  opens : Option String
  hidden : Bool
deriving DecidableEq

/-- The "View on GitHub" row action (lines 129-140).  `onClick` is
`if (!location) return; window.open(location.target, '_blank')`;
`hidden` is `location?.type !== 'github'`.  `findLocationForEntityMeta`
lives in `../../data/utils` and is passed in as a parameter. -/
def viewOnGitHubAction (findLocationForEntityMeta : EntityMeta → Option LocationSpec)
    (rowData : Entity) : RowAction :=
  let location := findLocationForEntityMeta rowData.metadata
  { tooltip := "View on GitHub"
    opens := location.map (fun l => l.target)
    hidden := !locationTypeIsGithub location }

/-- The "Edit" row action (lines 141-160).  `onClick` is
`if (!location) return; window.open(createEditLink(location), '_blank')`;
`hidden` is `location?.type !== 'github'`. -/
def editAction (findLocationForEntityMeta : EntityMeta → Option LocationSpec)
    (rowData : Entity) : RowAction :=
  let location := findLocationForEntityMeta rowData.metadata
  { tooltip := "Edit"
    opens := location.map createEditLink
    hidden := !locationTypeIsGithub location }

/-! ## The bootstrap action `addMockData` -/

/-- One external call initiated by `addMockData`, in initiation order. -/
inductive ApiEvent where
  | getStringArray (key : String)
  | getString (key : String)
  | addLocation (locType target : String)
  | getEntities
deriving DecidableEq

/-- The external collaborators reachable from `addMockData`: the two
`configApi` lookups (which throw on absent keys), `catalogApi.addLocation`
(a promise that may reject) and `catalogApi.getEntities`. -/
structure CatalogEnv where
  getStringArray : String → Except Err (List String)
  getString : String → Except Err String
  addLocation : String → String → Except Err LocationRecord
  getEntities : Except Err (List Entity)

/-- The synchronous `.map` over the file list (lines 113-120): for each
file, `configApi.getString('catalog.baseUrl')` is called (a throw aborts
the map and is caught, with the remaining `addLocation` calls never
initiated), then `catalogApi.addLocation('github', baseUrl + '/' + file)`
is initiated; its eventual settlement is collected in the promise list.
Returns the initiated-call trace and either the synchronously thrown error
or the list of promises. -/
def initLocationCalls (env : CatalogEnv) :
    List String → List ApiEvent × Except Err (List (Except Err LocationRecord))
  | [] => ([], Except.ok [])
  | file :: rest =>
    match env.getString "catalog.baseUrl" with
    | Except.error e => ([ApiEvent.getString "catalog.baseUrl"], Except.error e)
    | Except.ok base =>
      let prom := env.addLocation "github" (base ++ "/" ++ file)
      let (evs, restRes) := initLocationCalls env rest
      (ApiEvent.getString "catalog.baseUrl"
         :: ApiEvent.addLocation "github" (base ++ "/" ++ file) :: evs,
       match restRes with
       | Except.error e => Except.error e
       | Except.ok ps => Except.ok (prom :: ps))

/-- Model of `await Promise.all(_promises)` (line 121): resolves with all results
when every promise resolves, rejects with a rejection reason otherwise
(taken in list order in this deterministic model). -/
def promiseAll : List (Except Err LocationRecord) → Except Err (List LocationRecord)
  | [] => Except.ok []
  | Except.error e :: _ => Except.error e
  | Except.ok r :: rest => (promiseAll rest).map (fun rs => r :: rs)

/-- The try-block of `addMockData` (lines 113-123): read
`catalog.entities`, initiate one `addLocation` per file, await them all,
then call `getEntities`.  Returns the initiated-call trace and either the
fetched entity list or the first error thrown anywhere in the sequence. -/
def addMockDataRun (env : CatalogEnv) : List ApiEvent × Except Err (List Entity) :=
  match env.getStringArray "catalog.entities" with
  | Except.error e => ([ApiEvent.getStringArray "catalog.entities"], Except.error e)
  | Except.ok files =>
    let (evs, built) := initLocationCalls env files
    match built with
    | Except.error e =>
        (ApiEvent.getStringArray "catalog.entities" :: evs, Except.error e)
    | Except.ok promises =>
      match promiseAll promises with
      | Except.error e =>
          (ApiEvent.getStringArray "catalog.entities" :: evs, Except.error e)
      | Except.ok _ =>
          (ApiEvent.getStringArray "catalog.entities" :: evs ++ [ApiEvent.getEntities],
           env.getEntities)

/-- The handler `addMockData` (lines 111-127) as a state transformer: on success
`setEntitiesState(data)` replaces the displayed entity sequence; on any
caught error `setError(err)` stores it and nothing else changes. -/
def addMockData (env : CatalogEnv) (s : ComponentState) : ComponentState :=
  match (addMockDataRun env).2 with
  | Except.ok data => { s with entitiesState := data }
  | Except.error e => { s with errorState := some e }

/-- Whether the render result is the table element. -/
def rendersTable : View → Bool
  | View.errorView _ => false
  | View.tableView _ _ _ _ _ => true

/-- A concrete catalog entity used to instantiate theorems. -/
def exampleEntity : Entity :=
  { kind := "Component"
    metadata := { name := "example-service", namespace_ := none,
                  description := "An example service" }
    spec := { owner := "team-a", lifecycle := "production" } }

/-! ## Claims -/

/-- C2: for every render in which the displayed error state is set, the
component renders only the error alert containing the error's string
conversion, and the table is not rendered. -/
theorem error_short_circuits_render (s : ComponentState) (p : CatalogTableProps)
    (e : Err) (h : s.errorState = some e) :
    render s p =
      View.errorView ("Error encountered while fetching catalog entities. " ++ e.str)
    ∧ rendersTable (render s p) = false := by
  simp [render, h, rendersTable]

/-- Witness for C2 at a concrete errored state. -/
theorem error_short_circuits_render_witness :
    (ComponentState.mk [] (some ⟨"boom"⟩)).errorState = some ⟨"boom"⟩
    ∧ (render (ComponentState.mk [] (some ⟨"boom"⟩))
          (CatalogTableProps.mk [] "Components" false none) =
        View.errorView
          ("Error encountered while fetching catalog entities. " ++ "boom")
       ∧ rendersTable (render (ComponentState.mk [] (some ⟨"boom"⟩))
          (CatalogTableProps.mk [] "Components" false none)) = false) :=
  ⟨rfl,
   error_short_circuits_render (ComponentState.mk [] (some ⟨"boom"⟩))
     (CatalogTableProps.mk [] "Components" false none) ⟨"boom"⟩ rfl⟩

/-- C3: for every state of the component, the "Add example components"
free action is visible (its hidden flag is false) if and only if the
displayed entity sequence `entitiesState` has length 0. -/
theorem add_example_visible_iff_empty (s : ComponentState) :
    addExampleHidden s.entitiesState = false ↔ s.entitiesState.length = 0 := by
  simp [addExampleHidden]

/-- C6: the effect mirroring props into state replaces the displayed error
state and the displayed entity sequence with the new prop values, with no
dependence on (hence no merging or diffing against) the previous state. -/
theorem props_replace_state (p : CatalogTableProps) (s sPrev : ComponentState) :
    syncStateWithProps p s =
      { entitiesState := p.entities, errorState := p.error }
    ∧ syncStateWithProps p s = syncStateWithProps p sPrev :=
  ⟨rfl, rfl⟩

/-- C8: with props `entities = []`, `loading = false`, `error = undefined`
and title preamble `pre`, the component (after the effect mirrors props to
state) renders the table with title `pre ++ " (0)"`, empty row data with
the empty-data-source message enabled, the "Add example components" action
visible (hidden flag false), and not loading. -/
theorem empty_props_render (pre : String) :
    render (syncStateWithProps (CatalogTableProps.mk [] pre false none)
             (ComponentState.mk [] none))
           (CatalogTableProps.mk [] pre false none) =
      View.tableView (pre ++ " (0)") [] true false false := by
  simp [render, syncStateWithProps, addExampleHidden]
  rw [String.append_assoc, String.append_assoc]
  rfl

/-- C7: for every row whose resolved location type is not `github`,
including rows for which no location resolves at all, both the
"View on GitHub" action and the "Edit" action are hidden. -/
theorem non_github_actions_hidden (resolve : EntityMeta → Option LocationSpec)
    (rowData : Entity)
    (h : ∀ loc, resolve rowData.metadata = some loc → loc.type ≠ "github") :
    (viewOnGitHubAction resolve rowData).hidden = true
    ∧ (editAction resolve rowData).hidden = true := by
  cases hl : resolve rowData.metadata with
  | none => simp [viewOnGitHubAction, editAction, locationTypeIsGithub, hl]
  | some loc =>
    have hne := h loc hl
    simp [viewOnGitHubAction, editAction, locationTypeIsGithub, hl, hne]

/-- Witness for C7 at a concrete non-github location resolver. -/
theorem non_github_actions_hidden_witness :
    (viewOnGitHubAction
        (fun _ => some ⟨"gitlab", "https://gitlab.example.com/g/r"⟩)
        exampleEntity).hidden = true
    ∧ (editAction
        (fun _ => some ⟨"gitlab", "https://gitlab.example.com/g/r"⟩)
        exampleEntity).hidden = true :=
  non_github_actions_hidden _ _
    (by intro loc hl; injection hl with hl2; rw [← hl2]; decide)

/-- C10: for every row for which no location resolves, clicking
"View on GitHub" or "Edit" is a no-op: neither handler opens any URL, and
neither changes any state. -/
theorem no_location_click_noop (resolve : EntityMeta → Option LocationSpec)
    (rowData : Entity) (h : resolve rowData.metadata = none) :
    (viewOnGitHubAction resolve rowData).opens = none
    ∧ (editAction resolve rowData).opens = none := by
  simp [viewOnGitHubAction, editAction, h]

/-- Witness for C10 at a resolver that finds no location. -/
theorem no_location_click_noop_witness :
    ((fun _ : EntityMeta => (none : Option LocationSpec))
        exampleEntity.metadata = none)
    ∧ ((viewOnGitHubAction (fun _ => none) exampleEntity).opens = none
       ∧ (editAction (fun _ => none) exampleEntity).opens = none) :=
  ⟨rfl, no_location_click_noop _ _ rfl⟩

/-- The function `replaceFirstChars` is the identity when the pattern does not occur. -/
theorem replaceFirstChars_of_not_contains (pat repl : List Char) (l : List Char)
    (h : charsContains pat l = false) : replaceFirstChars pat repl l = l := by
  induction l with
  | nil =>
    simp [charsContains] at h
    simp [replaceFirstChars, h]
  | cons c cs ih =>
    simp [charsContains] at h
    simp [replaceFirstChars, h.1, ih h.2]

/-- The function `replaceFirst` is the identity when the pattern does not occur. -/
theorem replaceFirst_of_not_contains (s pat repl : String)
    (h : containsSub s pat = false) : replaceFirst s pat repl = s := by
  cases s with
  | mk data =>
    unfold replaceFirst
    rw [replaceFirstChars_of_not_contains pat.data repl.data data h]

/-- The location used in the counterexample to C4 as stated: its type is
not `github` but its target contains `/blob/`. -/
def gitlabBlobLocation : LocationSpec :=
  { type := "gitlab", target := "https://gitlab.example.com/g/r/blob/master/c.yaml" }

/-- C4 counterexample: the claim as stated — for EVERY row whose resolved
location target contains `/blob/` (with no restriction on the location
type), clicking "Edit" opens the target with `/blob/` replaced by
`/edit/` — is false.  At a row resolving to a `gitlab` location whose
target contains `/blob/`, the `Edit` handler opens the target unchanged,
because `createEditLink` rewrites only for location type `github`. -/
theorem edit_blob_rewrite_counterexample :
    ¬ (∀ (resolve : EntityMeta → Option LocationSpec) (rowData : Entity)
         (loc : LocationSpec),
        resolve rowData.metadata = some loc →
        (containsSub loc.target "/blob/" = true →
          (editAction resolve rowData).opens =
            some (replaceFirst loc.target "/blob/" "/edit/"))
        ∧ (containsSub loc.target "/blob/" = false →
          (editAction resolve rowData).opens = some loc.target)) := by
  intro h
  have h2 := (h (fun _ => some gitlabBlobLocation) exampleEntity
      gitlabBlobLocation rfl).1 (by decide)
  rw [show (editAction (fun _ => some gitlabBlobLocation) exampleEntity).opens
        = some gitlabBlobLocation.target from rfl] at h2
  exact absurd h2 (by decide)

/-- C4 amended: for every row whose resolved location type is `github`,
clicking "Edit" opens the target with the first occurrence of `/blob/`
replaced by `/edit/` (hence the target unchanged when it contains no
`/blob/`); for every row whose resolved location type is not `github`,
clicking "Edit" opens the original target unchanged. -/
theorem edit_click_opens (resolve : EntityMeta → Option LocationSpec)
    (rowData : Entity) (loc : LocationSpec)
    (h : resolve rowData.metadata = some loc) :
    (editAction resolve rowData).opens =
      some (if loc.type = "github"
            then replaceFirst loc.target "/blob/" "/edit/"
            else loc.target)
    ∧ (containsSub loc.target "/blob/" = false →
        (editAction resolve rowData).opens = some loc.target) := by
  constructor
  · simp [editAction, h, createEditLink]
  · intro hc
    simp [editAction, h, createEditLink, replaceFirst_of_not_contains _ _ _ hc]

/-- Witness for the amended C4 at a `github` location whose target
contains `/blob/`: the opened URL has `/blob/` rewritten to `/edit/`. -/
theorem edit_click_opens_witness :
    ((fun _ : EntityMeta =>
        some (LocationSpec.mk "github" "https://github.com/o/r/blob/master/c.yaml"))
      exampleEntity.metadata =
        some (LocationSpec.mk "github" "https://github.com/o/r/blob/master/c.yaml"))
    ∧ ((editAction
          (fun _ =>
            some (LocationSpec.mk "github" "https://github.com/o/r/blob/master/c.yaml"))
          exampleEntity).opens =
        some (if ("github" : String) = "github"
              then replaceFirst "https://github.com/o/r/blob/master/c.yaml" "/blob/" "/edit/"
              else "https://github.com/o/r/blob/master/c.yaml")
       ∧ (containsSub "https://github.com/o/r/blob/master/c.yaml" "/blob/" = false →
           (editAction
             (fun _ =>
               some (LocationSpec.mk "github" "https://github.com/o/r/blob/master/c.yaml"))
             exampleEntity).opens =
             some "https://github.com/o/r/blob/master/c.yaml")) :=
  ⟨rfl,
   edit_click_opens
     (fun _ =>
       some (LocationSpec.mk "github" "https://github.com/o/r/blob/master/c.yaml"))
     exampleEntity
     (LocationSpec.mk "github" "https://github.com/o/r/blob/master/c.yaml") rfl⟩

/-- Running `initLocationCalls` under a successful `catalog.baseUrl` lookup and
succeeding `addLocation` calls: the initiated-call trace interleaves one
`getString` and one `addLocation` per file, and every promise resolves. -/
theorem initLocationCalls_ok (env : CatalogEnv) (base : String)
    (hbase : env.getString "catalog.baseUrl" = Except.ok base) :
    ∀ files : List String,
      (∀ f ∈ files, ∃ r, env.addLocation "github" (base ++ "/" ++ f) = Except.ok r) →
      ∃ ps, initLocationCalls env files =
          (List.flatMap files (fun f =>
              [ApiEvent.getString "catalog.baseUrl",
               ApiEvent.addLocation "github" (base ++ "/" ++ f)]),
           Except.ok ps)
        ∧ ∃ rs, promiseAll ps = Except.ok rs := by
  intro files
  induction files with
  | nil =>
    intro _
    exact ⟨[], by simp [initLocationCalls], [], rfl⟩
  | cons f fs ih =>
    intro hall
    obtain ⟨r, hr⟩ := hall f (by simp)
    obtain ⟨ps, hps, rs, hrs⟩ := ih (fun g hg => hall g (List.mem_cons_of_mem _ hg))
    refine ⟨Except.ok r :: ps, ?_, r :: rs, ?_⟩
    · simp [initLocationCalls, hbase, hps, hr]
    · simp [promiseAll, hrs, Except.map]

/-- C1: whenever any call of the bootstrap sequence throws (the try-block
result is an error), the thrown error is caught and stored as the
displayed error and the displayed entity sequence is left unchanged — no
partially fetched result is applied. -/
theorem addMockData_failure_preserves_entities (env : CatalogEnv)
    (s : ComponentState) (e : Err)
    (h : (addMockDataRun env).2 = Except.error e) :
    (addMockData env s).entitiesState = s.entitiesState
    ∧ (addMockData env s).errorState = some e := by
  simp [addMockData, h]

/-- An environment whose `catalog.entities` config lookup throws. -/
def envFail : CatalogEnv :=
  { getStringArray := fun _ => Except.error ⟨"Key catalog.entities not found"⟩
    getString := fun _ => Except.ok "https://github.com/example/base"
    addLocation := fun _ _ => Except.ok ⟨⟩
    getEntities := Except.ok [] }

/-- Witness for C1: with a failing config lookup and a non-empty displayed
sequence, the sequence survives and the error is stored. -/
theorem addMockData_failure_preserves_entities_witness :
    (addMockDataRun envFail).2 = Except.error ⟨"Key catalog.entities not found"⟩
    ∧ ((addMockData envFail ⟨[exampleEntity], none⟩).entitiesState = [exampleEntity]
       ∧ (addMockData envFail ⟨[exampleEntity], none⟩).errorState =
           some ⟨"Key catalog.entities not found"⟩) :=
  ⟨rfl,
   addMockData_failure_preserves_entities envFail ⟨[exampleEntity], none⟩
     ⟨"Key catalog.entities not found"⟩ rfl⟩

/-- C5: a fully successful click of "Add example components" reads
`catalog.entities` and `catalog.baseUrl` from config, initiates
`addLocation('github', baseUrl + '/' + file)` once per file, awaits them
all (`Promise.all`), then calls `getEntities()` and replaces the displayed
entity sequence with its result. -/
theorem addMockData_success_spec (env : CatalogEnv) (s : ComponentState)
    (files : List String) (base : String) (data : List Entity)
    (h1 : env.getStringArray "catalog.entities" = Except.ok files)
    (h2 : env.getString "catalog.baseUrl" = Except.ok base)
    (h3 : ∀ f ∈ files, ∃ r, env.addLocation "github" (base ++ "/" ++ f) = Except.ok r)
    (h4 : env.getEntities = Except.ok data) :
    addMockData env s = { s with entitiesState := data }
    ∧ (addMockDataRun env).1 =
        ApiEvent.getStringArray "catalog.entities"
          :: (List.flatMap files (fun f =>
               [ApiEvent.getString "catalog.baseUrl",
                ApiEvent.addLocation "github" (base ++ "/" ++ f)]))
          ++ [ApiEvent.getEntities] := by
  obtain ⟨ps, hps, rs, hrs⟩ := initLocationCalls_ok env base h2 files h3
  constructor
  · simp [addMockData, addMockDataRun, h1, hps, hrs, h4]
  · simp [addMockDataRun, h1, hps, hrs, h4]

/-- An environment where every call of the bootstrap sequence succeeds:
two configured files and one entity returned by `getEntities`. -/
def envOk : CatalogEnv :=
  { getStringArray := fun k =>
      if k = "catalog.entities" then Except.ok ["a.yaml", "b.yaml"]
      else Except.error ⟨"missing key"⟩
    getString := fun k =>
      if k = "catalog.baseUrl" then Except.ok "https://github.com/example"
      else Except.error ⟨"missing key"⟩
    addLocation := fun _ _ => Except.ok ⟨⟩
    getEntities := Except.ok [exampleEntity] }

/-- Witness for C5 on `envOk`: the exact call trace and the replaced
entity sequence. -/
theorem addMockData_success_spec_witness :
    envOk.getStringArray "catalog.entities" = Except.ok ["a.yaml", "b.yaml"]
    ∧ envOk.getString "catalog.baseUrl" = Except.ok "https://github.com/example"
    ∧ envOk.getEntities = Except.ok [exampleEntity]
    ∧ (addMockData envOk ⟨[], none⟩ =
         { entitiesState := [exampleEntity], errorState := none }
       ∧ (addMockDataRun envOk).1 =
          ApiEvent.getStringArray "catalog.entities"
            :: (List.flatMap ["a.yaml", "b.yaml"] (fun f =>
                 [ApiEvent.getString "catalog.baseUrl",
                  ApiEvent.addLocation "github"
                    ("https://github.com/example" ++ "/" ++ f)]))
            ++ [ApiEvent.getEntities]) :=
  ⟨rfl, rfl, rfl,
   addMockData_success_spec envOk ⟨[], none⟩ ["a.yaml", "b.yaml"]
     "https://github.com/example" [exampleEntity] rfl rfl
     (fun _ _ => ⟨⟨⟩, rfl⟩) rfl⟩

/-- C9: the table title is always computed from the `entities` prop as
`titlePreamble ++ " (" ++ toString entities.length ++ ")"`, never from the
displayed entity state: changing `entitiesState` leaves the title
unchanged, and a successful "Add example components" click replaces the
displayed row data with the fetched entities while leaving the title (and
its count) exactly as before, so the title count can disagree with the
number of rows shown. -/
theorem title_from_props_only (p : CatalogTableProps) (s : ComponentState)
    (es2 : List Entity) (env : CatalogEnv) (data : List Entity)
    (hs : s.errorState = none)
    (hrun : (addMockDataRun env).2 = Except.ok data) :
    viewTitle (render s p) =
      some (p.titlePreamble ++ " (" ++ toString p.entities.length ++ ")")
    ∧ viewTitle (render { s with entitiesState := es2 } p) = viewTitle (render s p)
    ∧ viewTitle (render (addMockData env s) p) = viewTitle (render s p)
    ∧ viewData (render (addMockData env s) p) = some data := by
  have h1 : addMockData env s = { s with entitiesState := data } := by
    simp [addMockData, hrun]
  simp [render, viewTitle, viewData, h1, hs]

/-- Witness for C9 on `envOk`: the title stays `"All Components (0)"`
(from the empty `entities` prop) while one fetched row is displayed. -/
theorem title_from_props_only_witness :
    (ComponentState.mk [] none).errorState = none
    ∧ (addMockDataRun envOk).2 = Except.ok [exampleEntity]
    ∧ (viewTitle (render (ComponentState.mk [] none)
          (CatalogTableProps.mk [] "All Components" false none)) =
        some ("All Components" ++ " (" ++ toString (0 : Nat) ++ ")")
       ∧ viewTitle (render (ComponentState.mk [exampleEntity] none)
            (CatalogTableProps.mk [] "All Components" false none)) =
          viewTitle (render (ComponentState.mk [] none)
            (CatalogTableProps.mk [] "All Components" false none))
       ∧ viewTitle (render (addMockData envOk (ComponentState.mk [] none))
            (CatalogTableProps.mk [] "All Components" false none)) =
          viewTitle (render (ComponentState.mk [] none)
            (CatalogTableProps.mk [] "All Components" false none))
       ∧ viewData (render (addMockData envOk (ComponentState.mk [] none))
            (CatalogTableProps.mk [] "All Components" false none)) =
          some [exampleEntity]) :=
  ⟨rfl, rfl,
   title_from_props_only (CatalogTableProps.mk [] "All Components" false none)
     (ComponentState.mk [] none) [exampleEntity] envOk [exampleEntity] rfl rfl⟩
